import Mathlib

/-!
Verification of the zirv-db-sqlx crate: a process-wide, one-time-initialized
MySQL connection pool (src/db.rs) and transaction-scoping helpers (src/lib.rs).

The embedding models the global OnceLock slot as an explicit `Option Pool`
state threaded through the operations.  External collaborators are
parameters: configuration lookup (the zirv_config crate) is an explicit
record of optional values, and the network connect step (sqlx) is an
abstract function returning the identity of the created backing connection
set, or nothing on connection failure.  Rust panics are modelled as an
explicit fatal outcome, kept distinct by type from the recoverable
`Result`-style errors of the transaction helpers.  Each run of
`init_db_pool` also records the ordered trace of its observable steps
(config reads, connect attempt, slot-set attempt) so that ordering
properties of the source are statable.
-/

namespace ZirvDbSqlx

/-- A created connection pool: the backing connection identity handed back by
the driver, together with the URL and max-connections cap it was built with
(`MySqlPoolOptions::new().max_connections(m).connect(&url)` in src/db.rs). -/
structure Pool where
  id : Nat
  url : String
  maxConnections : Nat
deriving DecidableEq, Repr

/-- The state of the global `static DB_POOL: OnceLock<Pool<MySql>>` cell:
empty, or populated with the one pool. -/
abbrev Slot := Option Pool

/-- Outcome of an operation that either returns a value or panics fatally.
There is no recoverable-error variant: fatal conditions abort. -/
inductive PanicOr (α : Type) where
  | panic (msg : String)
  | ok (a : α)
deriving DecidableEq, Repr

/-- The configuration visible to `init_db_pool` through zirv_config:
`read_config!("database.max_connections", u32)` and
`read_config!("database.url", String)`, each possibly absent. -/
structure Config where
  databaseMaxConnections : Option Nat
  databaseUrl : Option String
deriving DecidableEq, Repr

/-- Observable steps of one `init_db_pool` run, in execution order. -/
inductive Event where
  | readMaxConnections (v : Option Nat)
  | readUrl (v : Option String)
  | connectAttempt (url : String) (maxConnections : Nat)
  | setAttempt (p : Pool)
deriving DecidableEq, Repr

/-- Whether an event is a network connect attempt. -/
def Event.isConnectAttempt : Event → Bool
  | .connectAttempt _ _ => true
  | _ => false

/-- Result of one `init_db_pool` run: the ordered event trace, the slot state
when the run ended (normally or by panic), and the panic message if it
panicked (`none` means it returned normally). -/
structure InitOutcome where
  events : List Event
  slot : Slot
  panicMsg : Option String
deriving DecidableEq, Repr

/-- Panic message of `Option::unwrap` on the absent database URL. -/
def missingUrlMsg : String := "called Option unwrap on a None value"

/-- Panic message of the `.expect` on a failed connect (src/db.rs line 26). -/
def connectFailMsg : String := "Failed to create MySQL pool."

/-- Panic message of the `.expect` on a failed `DB_POOL.set` (src/db.rs line 31). -/
def alreadyInitMsg : String := "DB_POOL can only be initialized once!"

/-- Panic message of the `.expect` in `get_db_pool` (src/db.rs line 44). -/
def notInitializedMsg : String := "DB pool not initialized! Call init_db_pool first."

/-- `OnceLock::set`: populates an empty cell and reports success; leaves a
populated cell untouched and reports failure. -/
def onceSet (slot : Slot) (p : Pool) : Slot × Bool :=
  match slot with
  | none => (some p, true)
  | some q => (some q, false)

/-- `init_db_pool` from src/db.rs, run against slot state `slot`, with the
network connect step abstracted as `connect url maxConnections`, returning
the created backing-connection identity or `none` on failure.  It reads the
max-connections value (defaulting to 10), unwraps the URL (panicking when
absent), connects (panicking on failure), and finally attempts to set the
OnceLock (panicking when it was already populated). -/
def init_db_pool (cfg : Config) (connect : String → Nat → Option Nat)
    (slot : Slot) : InitOutcome :=
  let maxC := cfg.databaseMaxConnections.getD 10
  let reads := [Event.readMaxConnections cfg.databaseMaxConnections,
                Event.readUrl cfg.databaseUrl]
  match cfg.databaseUrl with
  | none => ⟨reads, slot, some missingUrlMsg⟩
  | some url =>
    match connect url maxC with
    | none => ⟨reads ++ [Event.connectAttempt url maxC], slot, some connectFailMsg⟩
    | some cid =>
      let pool : Pool := ⟨cid, url, maxC⟩
      let trace := reads ++ [Event.connectAttempt url maxC, Event.setAttempt pool]
      match onceSet slot pool with
      | (slot2, true) => ⟨trace, slot2, none⟩
      | (slot2, false) => ⟨trace, slot2, some alreadyInitMsg⟩

/-- `get_db_pool` from src/db.rs: returns the pool in the slot, panicking if
the slot was never populated.  It is a total function of the slot state: it
never waits, and by its result type it has no recoverable-error outcome. -/
def get_db_pool (slot : Slot) : PanicOr Pool :=
  match slot with
  | none => .panic notInitializedMsg
  | some p => .ok p

/-- A linearized race of populate attempts on the OnceLock: the attempts
reach `OnceLock::set` in this order, each with the pool it built.  Returns
the final slot state and how many attempts succeeded. -/
def runSetRace (slot : Slot) (ps : List Pool) : Slot × Nat :=
  match ps with
  | [] => (slot, 0)
  | p :: rest =>
    let step := onceSet slot p
    let tail := runSetRace step.1 rest
    (tail.1, (if step.2 then 1 else 0) + tail.2)

/-- An opaque sqlx error value, as logged and propagated by the helpers. -/
structure SqlxError where
  code : Nat
deriving DecidableEq, Repr

/-- A transaction handle; `active` is false once a terminal operation has
consumed it (sqlx `commit`/`rollback` take the handle by value). -/
structure TxHandle where
  id : Nat
  active : Bool
deriving DecidableEq, Repr

/-- Result of one expansion of the `start_transaction!` macro: the errors
written to the error stream, the value of the enclosing function (an `Err`
result models the early `return Err(e)`), and how many times the
underlying `begin` was invoked. -/
structure StartOutcome where
  log : List SqlxError
  result : Except SqlxError TxHandle
  beginCalls : Nat

/-- The `start_transaction!` macro from src/lib.rs, with the database round
trip abstracted as its outcome `beginResult`: on `Ok(tx)` it yields the
handle; on `Err(e)` it logs `e` and early-returns `Err(e)` unchanged.  The
macro contains exactly one `begin` call and no retry. -/
def start_transaction (beginResult : Except SqlxError TxHandle) : StartOutcome :=
  match beginResult with
  | .ok tx => ⟨[], .ok tx, 1⟩
  | .error e => ⟨[e], .error e, 1⟩

/-- Result of one expansion of `commit_transaction!` or
`rollback_transaction!`: errors logged, the enclosing-function value
(`Err e` models the early return), and the handle after the call. -/
structure TerminalOutcome where
  log : List SqlxError
  result : Except SqlxError Unit
  handle : TxHandle

/-- The `commit_transaction!` macro from src/lib.rs, with the database round
trip abstracted as its outcome: on success nothing is logged and execution
continues; on failure the error is logged and early-returned.  The handle
is consumed (moved into sqlx `commit`) in both cases. -/
def commit_transaction (tx : TxHandle) (commitResult : Except SqlxError Unit) :
    TerminalOutcome :=
  match commitResult with
  | .ok _ => ⟨[], .ok (), { tx with active := false }⟩
  | .error e => ⟨[e], .error e, { tx with active := false }⟩

/-- The `rollback_transaction!` macro from src/lib.rs, same shape as
`commit_transaction!` with the rollback round trip abstracted. -/
def rollback_transaction (tx : TxHandle) (rollbackResult : Except SqlxError Unit) :
    TerminalOutcome :=
  match rollbackResult with
  | .ok _ => ⟨[], .ok (), { tx with active := false }⟩
  | .error e => ⟨[e], .error e, { tx with active := false }⟩

/-- A run of `init_db_pool` that panics leaves the slot exactly as it found
it: every panic site (missing URL, failed connect, failed set) precedes or
refuses the write. -/
lemma init_panic_slot_eq (cfg : Config) (connect : String → Nat → Option Nat)
    (slot : Slot) (h : (init_db_pool cfg connect slot).panicMsg ≠ none) :
    (init_db_pool cfg connect slot).slot = slot := by
  unfold init_db_pool at *
  cases hu : cfg.databaseUrl with
  | none => simp [hu]
  | some url =>
    cases hc : connect url (cfg.databaseMaxConnections.getD 10) with
    | none => simp [hu, hc]
    | some cid =>
      cases slot with
      | none => simp [hu, hc, onceSet] at h
      | some q => simp [hu, hc, onceSet]

/-- A run of `init_db_pool` from an empty slot with a present URL and a
successful connect returns normally. -/
lemma init_success_from_empty (cfg : Config) (connect : String → Nat → Option Nat)
    (url : String) (cid : Nat) (h1 : cfg.databaseUrl = some url)
    (h2 : connect url (cfg.databaseMaxConnections.getD 10) = some cid) :
    (init_db_pool cfg connect none).panicMsg = none := by
  unfold init_db_pool
  simp [h1, h2, onceSet]

/-- After the OnceLock is populated, any further linearized set attempts all
fail and the contents never change. -/
lemma runSetRace_populated (rest : List Pool) (q : Pool) :
    runSetRace (some q) rest = (some q, 0) := by
  induction rest with
  | nil => rfl
  | cons p rest ih => simp [runSetRace, onceSet, ih]

/-- Every `init_db_pool` run against an already-populated slot panics,
whichever of its three panic sites it reaches. -/
lemma init_populated_panics (cfg : Config) (connect : String → Nat → Option Nat)
    (p : Pool) : (init_db_pool cfg connect (some p)).panicMsg ≠ none := by
  unfold init_db_pool
  cases h : cfg.databaseUrl with
  | none => simp
  | some url =>
    cases hc : connect url (cfg.databaseMaxConnections.getD 10) with
    | none => simp [hc, onceSet]
    | some cid => simp [hc, onceSet]

/-- C1: once the slot holds a pool from a prior successful initialization,
any second `init_db_pool` call panics, whatever its configuration and
however its connect step behaves. -/
theorem init_second_call_panics (cfg : Config) (connect : String → Nat → Option Nat)
    (p : Pool) : (init_db_pool cfg connect (some p)).panicMsg ≠ none :=
  init_populated_panics cfg connect p

/-- Witness for C1 at a concrete second call with differing parameters. -/
theorem init_second_call_panics_witness :
    (init_db_pool ⟨some 20, some "mysql://other/db"⟩ (fun _ _ => some 4)
      (some ⟨0, "mysql://h/s", 10⟩)).panicMsg ≠ none :=
  init_second_call_panics ⟨some 20, some "mysql://other/db"⟩ (fun _ _ => some 4)
    ⟨0, "mysql://h/s", 10⟩

/-- C2: calling `get_db_pool` on the never-populated slot panics with the
not-initialized message; it never produces a pool, and its result type has
no recoverable variant at all.  Being a total function of the slot state,
it answers immediately rather than waiting for initialization. -/
theorem get_before_init_panics :
    get_db_pool none = PanicOr.panic notInitializedMsg ∧
    ∀ p : Pool, get_db_pool none ≠ PanicOr.ok p := by
  refine ⟨rfl, fun p h => ?_⟩
  simp [get_db_pool] at h

/-- Witness for C2 at a concrete pool value. -/
theorem get_before_init_panics_witness :
    get_db_pool none = PanicOr.panic notInitializedMsg ∧
    get_db_pool none ≠ PanicOr.ok ⟨0, "mysql://h/s", 10⟩ :=
  ⟨get_before_init_panics.1, get_before_init_panics.2 ⟨0, "mysql://h/s", 10⟩⟩

/-- C3: whenever a single `init_db_pool` run from the empty slot completes
successfully, there is one pool it created, and `get_db_pool` on the
resulting slot returns exactly that pool — the same answer for every
caller, since the slot is never written again. -/
theorem init_then_get_same_pool (cfg : Config) (connect : String → Nat → Option Nat)
    (h : (init_db_pool cfg connect none).panicMsg = none) :
    ∃ p : Pool, (init_db_pool cfg connect none).slot = some p ∧
      get_db_pool (init_db_pool cfg connect none).slot = PanicOr.ok p := by
  unfold init_db_pool at *
  cases hu : cfg.databaseUrl with
  | none => simp [hu] at h
  | some url =>
    cases hc : connect url (cfg.databaseMaxConnections.getD 10) with
    | none => simp [hu, hc] at h
    | some cid =>
      refine ⟨⟨cid, url, cfg.databaseMaxConnections.getD 10⟩, ?_, ?_⟩ <;>
        simp [hu, hc, onceSet, get_db_pool]

/-- Witness for C3 at a concrete configuration and connect function. -/
theorem init_then_get_same_pool_witness :
    (init_db_pool ⟨none, some "mysql://h/s"⟩ (fun _ _ => some 1) none).panicMsg = none ∧
    ∃ p : Pool, (init_db_pool ⟨none, some "mysql://h/s"⟩ (fun _ _ => some 1) none).slot = some p ∧
      get_db_pool (init_db_pool ⟨none, some "mysql://h/s"⟩ (fun _ _ => some 1) none).slot =
        PanicOr.ok p :=
  ⟨rfl, init_then_get_same_pool ⟨none, some "mysql://h/s"⟩ (fun _ _ => some 1) rfl⟩

/-- C4: the slot is write-once.  First part: a populated slot is never
mutated or cleared by a further `init_db_pool` call, and that call is never
a silent no-op success — it panics.  Second part: among any nonempty
linearized race of populate attempts on the empty OnceLock, exactly one
succeeds (the first to reach `set`) and the final contents are that single
winning pool, so no two different pools are ever visible. -/
theorem slot_write_once :
    (∀ (cfg : Config) (connect : String → Nat → Option Nat) (p : Pool),
      (init_db_pool cfg connect (some p)).slot = some p ∧
      (init_db_pool cfg connect (some p)).panicMsg ≠ none) ∧
    (∀ ps : List Pool, ps ≠ [] →
      (runSetRace none ps).2 = 1 ∧ (runSetRace none ps).1 = ps.head?) := by
  constructor
  · intro cfg connect p
    have hne := init_populated_panics cfg connect p
    exact ⟨init_panic_slot_eq cfg connect (some p) hne, hne⟩
  · intro ps hps
    cases ps with
    | nil => exact absurd rfl hps
    | cons p rest => simp [runSetRace, onceSet, runSetRace_populated]

/-- Witness for C4 at two concrete racing pools and a concrete second call. -/
theorem slot_write_once_witness :
    ((init_db_pool ⟨none, some "mysql://h/s"⟩ (fun _ _ => some 2)
        (some ⟨0, "mysql://h/s", 10⟩)).slot = some ⟨0, "mysql://h/s", 10⟩ ∧
     (init_db_pool ⟨none, some "mysql://h/s"⟩ (fun _ _ => some 2)
        (some ⟨0, "mysql://h/s", 10⟩)).panicMsg ≠ none) ∧
    ((runSetRace none [⟨1, "a", 10⟩, ⟨2, "b", 5⟩]).2 = 1 ∧
     (runSetRace none [⟨1, "a", 10⟩, ⟨2, "b", 5⟩]).1 =
       ([⟨1, "a", 10⟩, ⟨2, "b", 5⟩] : List Pool).head?) :=
  ⟨slot_write_once.1 ⟨none, some "mysql://h/s"⟩ (fun _ _ => some 2) ⟨0, "mysql://h/s", 10⟩,
   slot_write_once.2 [⟨1, "a", 10⟩, ⟨2, "b", 5⟩] (by simp)⟩

/-- C5: when the configuration has no database URL, `init_db_pool` panics at
the unwrap of the URL, and its event trace contains no connect attempt: the
fatal failure happens before any network connection is tried. -/
theorem missing_url_fatal_before_connect (cfg : Config)
    (connect : String → Nat → Option Nat) (slot : Slot)
    (h : cfg.databaseUrl = none) :
    (init_db_pool cfg connect slot).panicMsg = some missingUrlMsg ∧
    (init_db_pool cfg connect slot).events.any Event.isConnectAttempt = false := by
  unfold init_db_pool
  simp [h, Event.isConnectAttempt]

/-- Witness for C5 at a concrete URL-less configuration. -/
theorem missing_url_fatal_before_connect_witness :
    (⟨some 5, none⟩ : Config).databaseUrl = none ∧
    ((init_db_pool ⟨some 5, none⟩ (fun _ _ => some 0) none).panicMsg = some missingUrlMsg ∧
     (init_db_pool ⟨some 5, none⟩ (fun _ _ => some 0) none).events.any
       Event.isConnectAttempt = false) :=
  ⟨rfl, missing_url_fatal_before_connect ⟨some 5, none⟩ (fun _ _ => some 0) none rfl⟩

/-- C6: with the max-connections key absent and the URL present, a
successful initialization from the empty slot creates a pool whose
max-connections cap is exactly the default 10. -/
theorem default_max_connections (cfg : Config) (connect : String → Nat → Option Nat)
    (url : String) (cid : Nat)
    (h1 : cfg.databaseMaxConnections = none) (h2 : cfg.databaseUrl = some url)
    (h3 : connect url 10 = some cid) :
    ∃ p : Pool, (init_db_pool cfg connect none).slot = some p ∧
      p.maxConnections = 10 ∧ (init_db_pool cfg connect none).panicMsg = none := by
  unfold init_db_pool
  refine ⟨⟨cid, url, 10⟩, ?_, rfl, ?_⟩ <;> simp [h1, h2, h3, onceSet]

/-- Witness for C6 at a concrete configuration omitting max_connections. -/
theorem default_max_connections_witness :
    (⟨none, some "db://user:pass@host/schema"⟩ : Config).databaseMaxConnections = none ∧
    (⟨none, some "db://user:pass@host/schema"⟩ : Config).databaseUrl =
      some "db://user:pass@host/schema" ∧
    ((fun _ _ => some 3) : String → Nat → Option Nat) "db://user:pass@host/schema" 10 = some 3 ∧
    ∃ p : Pool,
      (init_db_pool ⟨none, some "db://user:pass@host/schema"⟩ (fun _ _ => some 3) none).slot =
        some p ∧ p.maxConnections = 10 ∧
      (init_db_pool ⟨none, some "db://user:pass@host/schema"⟩ (fun _ _ => some 3) none).panicMsg =
        none :=
  ⟨rfl, rfl, rfl,
   default_max_connections ⟨none, some "db://user:pass@host/schema"⟩ (fun _ _ => some 3)
     "db://user:pass@host/schema" 3 rfl rfl rfl⟩

/-- C7: when the underlying begin fails with error e, the
start-transaction helper logs exactly that error to the error stream and
early-returns it unchanged as the recoverable value of the enclosing
function; it invokes begin exactly once (no internal retry); and on
success it yields the new transaction handle. -/
theorem start_transaction_spec :
    (∀ e : SqlxError,
      (start_transaction (Except.error e)).log = [e] ∧
      (start_transaction (Except.error e)).result = Except.error e ∧
      (start_transaction (Except.error e)).beginCalls = 1) ∧
    (∀ tx : TxHandle,
      (start_transaction (Except.ok tx)).result = Except.ok tx ∧
      (start_transaction (Except.ok tx)).log = [] ∧
      (start_transaction (Except.ok tx)).beginCalls = 1) :=
  ⟨fun _ => ⟨rfl, rfl, rfl⟩, fun _ => ⟨rfl, rfl, rfl⟩⟩

/-- Witness for C7 at a concrete error and a concrete handle. -/
theorem start_transaction_spec_witness :
    ((start_transaction (Except.error ⟨42⟩)).log = [⟨42⟩] ∧
     (start_transaction (Except.error ⟨42⟩)).result = Except.error ⟨42⟩ ∧
     (start_transaction (Except.error ⟨42⟩)).beginCalls = 1) ∧
    ((start_transaction (Except.ok ⟨1, true⟩)).result = Except.ok ⟨1, true⟩ ∧
     (start_transaction (Except.ok ⟨1, true⟩)).log = [] ∧
     (start_transaction (Except.ok ⟨1, true⟩)).beginCalls = 1) :=
  ⟨start_transaction_spec.1 ⟨42⟩, start_transaction_spec.2 ⟨1, true⟩⟩

/-- C8: a failing commit or rollback logs the error and returns it to the
caller as a recoverable value, never swallowing it; and in both the success
and the failure case the handle comes back consumed (inactive), so it
cannot be used again. -/
theorem terminal_ops_spec :
    (∀ (tx : TxHandle) (e : SqlxError),
      (commit_transaction tx (Except.error e)).log = [e] ∧
      (commit_transaction tx (Except.error e)).result = Except.error e ∧
      (rollback_transaction tx (Except.error e)).log = [e] ∧
      (rollback_transaction tx (Except.error e)).result = Except.error e) ∧
    (∀ (tx : TxHandle) (r : Except SqlxError Unit),
      (commit_transaction tx r).handle.active = false ∧
      (rollback_transaction tx r).handle.active = false) := by
  constructor
  · intro tx e
    exact ⟨rfl, rfl, rfl, rfl⟩
  · intro tx r
    cases r <;> exact ⟨rfl, rfl⟩

/-- Witness for C8 at a concrete handle, a concrete error and both outcomes. -/
theorem terminal_ops_spec_witness :
    ((commit_transaction ⟨1, true⟩ (Except.error ⟨7⟩)).log = [⟨7⟩] ∧
     (commit_transaction ⟨1, true⟩ (Except.error ⟨7⟩)).result = Except.error ⟨7⟩ ∧
     (rollback_transaction ⟨1, true⟩ (Except.error ⟨7⟩)).log = [⟨7⟩] ∧
     (rollback_transaction ⟨1, true⟩ (Except.error ⟨7⟩)).result = Except.error ⟨7⟩) ∧
    ((commit_transaction ⟨1, true⟩ (Except.ok ())).handle.active = false ∧
     (rollback_transaction ⟨1, true⟩ (Except.ok ())).handle.active = false) :=
  ⟨terminal_ops_spec.1 ⟨1, true⟩ ⟨7⟩, terminal_ops_spec.2 ⟨1, true⟩ (Except.ok ())⟩

/-- C9: a panicking `init_db_pool` run leaves the slot exactly as it found
it — in particular a failed run from the empty slot leaves it empty, and a
later run with a present URL and a working connect then succeeds. -/
theorem failed_init_slot_unchanged (cfg : Config) (connect : String → Nat → Option Nat)
    (slot : Slot) (h : (init_db_pool cfg connect slot).panicMsg ≠ none) :
    (init_db_pool cfg connect slot).slot = slot ∧
    (∀ (cfg2 : Config) (connect2 : String → Nat → Option Nat) (url : String) (cid : Nat),
      slot = none → cfg2.databaseUrl = some url →
      connect2 url (cfg2.databaseMaxConnections.getD 10) = some cid →
      (init_db_pool cfg2 connect2 (init_db_pool cfg connect slot).slot).panicMsg = none) := by
  have hs := init_panic_slot_eq cfg connect slot h
  refine ⟨hs, fun cfg2 connect2 url cid hnone h2 h3 => ?_⟩
  rw [hs, hnone]
  exact init_success_from_empty cfg2 connect2 url cid h2 h3

/-- Witness for C9: a first run with the URL absent panics and leaves the
slot empty, after which a concrete valid run succeeds. -/
theorem failed_init_slot_unchanged_witness :
    (init_db_pool ⟨none, none⟩ (fun _ _ => none) none).panicMsg ≠ none ∧
    (init_db_pool ⟨none, none⟩ (fun _ _ => none) none).slot = none ∧
    (init_db_pool ⟨none, some "mysql://h/s"⟩ (fun _ _ => some 7)
      (init_db_pool ⟨none, none⟩ (fun _ _ => none) none).slot).panicMsg = none := by
  have h : (init_db_pool ⟨none, none⟩ (fun _ _ => none) none).panicMsg ≠ none := by
    simp [init_db_pool]
  have hmain := failed_init_slot_unchanged ⟨none, none⟩ (fun _ _ => none) none h
  exact ⟨h, hmain.1,
    hmain.2 ⟨none, some "mysql://h/s"⟩ (fun _ _ => some 7) "mysql://h/s" 7 rfl rfl rfl⟩

/-- C10: a second `init_db_pool` call after a successful one, given a
present URL and a connect step that succeeds, runs through its whole event
trace — reading both configuration values, then attempting the (redundant)
network connection, then attempting the slot set — and only then panics
with the already-initialized message. -/
theorem second_init_connects_before_panicking (cfg : Config)
    (connect : String → Nat → Option Nat) (p : Pool) (url : String) (cid : Nat)
    (h1 : cfg.databaseUrl = some url)
    (h2 : connect url (cfg.databaseMaxConnections.getD 10) = some cid) :
    (init_db_pool cfg connect (some p)).events =
      [Event.readMaxConnections cfg.databaseMaxConnections,
       Event.readUrl (some url),
       Event.connectAttempt url (cfg.databaseMaxConnections.getD 10),
       Event.setAttempt ⟨cid, url, cfg.databaseMaxConnections.getD 10⟩] ∧
    (init_db_pool cfg connect (some p)).panicMsg = some alreadyInitMsg := by
  unfold init_db_pool
  simp [h1, h2, onceSet]

/-- Witness for C10 at a concrete second call whose parameters differ from
the pool already in the slot. -/
theorem second_init_connects_before_panicking_witness :
    (⟨some 3, some "mysql://other/db"⟩ : Config).databaseUrl = some "mysql://other/db" ∧
    ((fun _ _ => some 9) : String → Nat → Option Nat) "mysql://other/db" 3 = some 9 ∧
    ((init_db_pool ⟨some 3, some "mysql://other/db"⟩ (fun _ _ => some 9)
        (some ⟨0, "mysql://h/s", 10⟩)).events =
      [Event.readMaxConnections (some 3),
       Event.readUrl (some "mysql://other/db"),
       Event.connectAttempt "mysql://other/db" 3,
       Event.setAttempt ⟨9, "mysql://other/db", 3⟩] ∧
     (init_db_pool ⟨some 3, some "mysql://other/db"⟩ (fun _ _ => some 9)
        (some ⟨0, "mysql://h/s", 10⟩)).panicMsg = some alreadyInitMsg) :=
  ⟨rfl, rfl,
   second_init_connects_before_panicking ⟨some 3, some "mysql://other/db"⟩
     (fun _ _ => some 9) ⟨0, "mysql://h/s", 10⟩ "mysql://other/db" 9 rfl rfl⟩

end ZirvDbSqlx
